import Mathlib

/-!
Shallow embedding of the autofan fan controller (src/main.go) and proofs
about its control loop.

Modelling conventions:
* Go `float64` is modelled as the exact rationals `ℚ`; Go `int64`/`int` as
  unbounded `ℤ`.  The claims under study concern exact arithmetic identities,
  guards and control flow, not IEEE rounding or machine overflow.
* External collaborators are explicit parameters: the hardware-sensor
  provider (`gosensors`) enters as a list of chips, the actuator write
  (`ioutil.WriteFile`) as a function from the attempted set-point to an
  optional error, the compiled sensor regexes as abstract `String → Bool`
  matchers, and the fallible steps of `main` (file read, yaml unmarshal,
  regex compilation, duration parsing) as their error outcomes.
* The Go map `sensorsValues` is an association list whose insert removes any
  previous binding of the key, so keys stay unique and later stores win;
  sums and maxima over it are order-independent in `ℚ`, matching the
  unspecified iteration order of a Go map.
-/

namespace Autofan

/-- Go conversion `int(x)` for `x : float64`: truncation toward zero. -/
def truncQ (q : ℚ) : ℤ := if 0 ≤ q then ⌊q⌋ else ⌈q⌉

/-- ASCII whitespace recognised by the model of `strings.TrimSpace`. -/
def isSpaceGo (c : Char) : Bool :=
  c == ' ' || c == '\t' || c == '\n' || c == '\r'

/-- Models Go `strings.TrimSpace` (src/main.go line 142): drop leading and
trailing whitespace.  Defined structurally on the character list so that it
evaluates inside the kernel. -/
def trimSpace (s : String) : String :=
  String.mk (((s.data.dropWhile isSpaceGo).reverse.dropWhile isSpaceGo).reverse)

/-- The Go struct `configSpec` (src/main.go lines 17-29).  `Sensors` is the
raw pattern list from the yaml; `sensors` is its compilation by
`regexp.Compile`, an external collaborator, so the compiled matchers are
abstract predicates on the composed sensor name.  The parsed
`time.Duration` field only drives the ticker period and is not modelled:
no claim under study concerns scheduling. -/
structure configSpec where
  Mode : String
  Interval : String
  MinSpeed : ℤ
  MaxSpeed : ℤ
  HighTemp : ℚ
  NormalTemp : ℚ
  Fan : String
  Output : String
  Sensors : List String
  sensors : List (String → Bool)

/-- `type sensorsValues map[string]float64` (src/main.go line 31), as an
association list with unique keys. -/
abbrev sensorsValues := List (String × ℚ)

/-- One named feature reading of a chip, as yielded by the provider. -/
structure Feature where
  label : String
  value : ℚ
deriving DecidableEq

/-- One detected chip: its identifier (`chip.String()`) and its features. -/
structure Chip where
  id : String
  features : List Feature
deriving DecidableEq

/-- A provider reading with its composed sensor name. -/
structure Reading where
  name : String
  value : ℚ
deriving DecidableEq

/-- The readings the provider exposes, with the composed name
`chip.String() + ":" + feature.GetLabel()` (src/main.go line 140); the two
nested loops of `fetchValues` are flattened into this single list. -/
def allReadings (chips : List Chip) : List Reading :=
  chips.flatMap fun c =>
    c.features.map fun f => { name := c.id ++ ":" ++ f.label, value := f.value }

/-- Go map assignment `temperatures[sensorName] = value` (src/main.go
line 162): the new binding replaces any previous binding of the same key. -/
def mapInsert (m : sensorsValues) (k : String) (v : ℚ) : sensorsValues :=
  (k, v) :: m.filter fun p => !(p.1 == k)

/-- Go map read on the association list (first match; keys are unique). -/
def mapLookup : sensorsValues → String → Option ℚ
  | [], _ => none
  | p :: m, k => if p.1 == k then some p.2 else mapLookup m k

/-- The body of the loops of `fetchValues` for one reading (src/main.go
lines 139-163): a reading whose trimmed composed name equals the fan
identifier sets `fanSpeed` and is skipped; otherwise, with a non-empty
pattern set, a reading matching no pattern is skipped; every remaining
reading is stored into the temperature map. -/
def fetchStep (fanName : String) (sensorsRE : List (String → Bool))
    (acc : sensorsValues × ℤ) (r : Reading) : sensorsValues × ℤ :=
  if trimSpace r.name == fanName then
    (acc.1, truncQ r.value)
  else if sensorsRE.length != 0 && !(sensorsRE.any fun re => re r.name) then
    acc
  else
    (mapInsert acc.1 r.name r.value, acc.2)

/-- `fetchValues` over an explicit reading list, starting from the empty
map and `fanSpeed := 0` (src/main.go lines 135-136). -/
def fetchValuesList (fanName : String) (sensorsRE : List (String → Bool))
    (readings : List Reading) : sensorsValues × ℤ :=
  readings.foldl (fetchStep fanName sensorsRE) ([], 0)

/-- `fetchValues` (src/main.go lines 134-167).  The provider
(`gosensors.GetDetectedChips`) is external, so the detected chips are an
explicit argument. -/
def fetchValues (fanName : String) (sensorsRE : List (String → Bool))
    (chips : List Chip) : sensorsValues × ℤ :=
  fetchValuesList fanName sensorsRE (allReadings chips)

/-- The running sum of the loop at src/main.go lines 172-178
(`var sum float64`, starting at 0). -/
def sumValues (values : sensorsValues) : ℚ :=
  values.foldl (fun acc p => acc + p.2) 0

/-- The running maximum of the loop at src/main.go lines 172-178:
`var max float64` starts at 0 and is raised only by strictly larger
readings. -/
def maxValues (values : sensorsValues) : ℚ :=
  values.foldl (fun acc p => if p.2 > acc then p.2 else acc) 0

/-- The linear mapping at src/main.go lines 189-194, truncated toward zero
by the Go `int(...)` conversion. -/
def speedOf (config : configSpec) (temp : ℚ) : ℤ :=
  truncQ ((config.MinSpeed : ℚ) +
    ((config.MaxSpeed - config.MinSpeed : ℤ) : ℚ) /
      (config.HighTemp - config.NormalTemp) * (temp - config.NormalTemp))

/-- `computeNewFanSpeed` (src/main.go lines 169-195).  The Go `switch` on
`config.Mode` is this if chain; the `default` case returns the error of
line 186 (quotes of the original message elided). -/
def computeNewFanSpeed (config : configSpec) (values : sensorsValues) :
    Except String (ℚ × ℤ) :=
  if config.Mode = "mean" then
    let temp := sumValues values / (values.length : ℚ)
    Except.ok (temp, speedOf config temp)
  else if config.Mode = "max" then
    Except.ok (maxValues values, speedOf config (maxValues values))
  else
    Except.error ("unrecognized mode " ++ config.Mode ++ ". should be max or mean")

/-- Terminal status of one ticker cycle (the goroutine body, src/main.go
lines 92-119), with the message printed on that path where one is built
from runtime data. -/
inductive Outcome where
  | skipEmpty : Outcome
  | failMode (err : String) : Outcome
  | skipUnchanged : Outcome
  | failWrite (err : String) : Outcome
  | success (newSpeed : ℤ) : Outcome
deriving DecidableEq

/-- One cycle of the control loop (src/main.go lines 92-119).  `writeErr`
models `ioutil.WriteFile` on `config.Output`: `none` means the write of the
given set-point succeeds, `some e` that it fails with error `e`.  Returns
the new `lastTemperature`, the outcome, and the attempted actuator write if
any. -/
def workStep (config : configSpec) (writeErr : ℤ → Option String)
    (lastTemperature : ℚ) (chips : List Chip) : ℚ × Outcome × Option ℤ :=
  let fetched := fetchValues config.Fan config.sensors chips
  if fetched.1.length = 0 then
    (lastTemperature, Outcome.skipEmpty, none)
  else
    match computeNewFanSpeed config fetched.1 with
    | Except.error e => (lastTemperature, Outcome.failMode e, none)
    | Except.ok (temperature, newFanSpeed) =>
      if temperature = lastTemperature then
        (lastTemperature, Outcome.skipUnchanged, none)
      else
        match writeErr newFanSpeed with
        | some e =>
          (lastTemperature, Outcome.failWrite ("setting fan speed: " ++ e), some newFanSpeed)
        | none => (temperature, Outcome.success newFanSpeed, some newFanSpeed)

/-- The load path of `main` (src/main.go lines 49-81) after the defaults:
the four fallible steps before `work` is called are all external
(`ioutil.ReadFile`, `yaml.Unmarshal`, `regexp.Compile` on each entry of
`config.Sensors`, `time.ParseDuration` on `config.Interval`); their
outcomes are parameters, `none` meaning success.  `main` exits with an
error when one of them fails and otherwise starts the loop.  No other field
of the unmarshalled config is examined on this path: in particular neither
`Mode` nor `HighTemp`/`NormalTemp` is looked at before the loop starts. -/
def mainStartsLoop (config : configSpec) (readErr yamlErr : Option String)
    (regexCompile : String → Option String)
    (parseDuration : String → Option String) : Bool :=
  readErr.isNone && yamlErr.isNone &&
    (config.Sensors.all fun s => (regexCompile s).isNone) &&
    (parseDuration config.Interval).isNone

/-- Whether `fetchStep` stores a reading into the temperature map: not the
fan reading, and (pattern set empty or some pattern matches). -/
def included (fanName : String) (sensorsRE : List (String → Bool))
    (r : Reading) : Bool :=
  !(trimSpace r.name == fanName) &&
    (sensorsRE.length == 0 || sensorsRE.any fun re => re r.name)

/-- The last element of `l` satisfying `p`, in enumeration order. -/
def lastMatching (p : Reading → Bool) (l : List Reading) : Option Reading :=
  l.foldl (fun acc r => if p r then some r else acc) none

/-- An actuator whose writes always succeed. -/
def okWrite : ℤ → Option String := fun _ => none

/-- The aggregated control value and set-point a cycle computes from the
given provider data (the pair of src/main.go line 100). -/
def cycleValue (config : configSpec) (chips : List Chip) :
    Except String (ℚ × ℤ) :=
  computeNewFanSpeed config (fetchValues config.Fan config.sensors chips).1

/-- Number of actuator writes a cycle attempted (0 or 1). -/
def writeCount (r : ℚ × Outcome × Option ℤ) : ℕ :=
  if r.2.2.isSome then 1 else 0

/-- Two consecutive cycles over the same provider data, counting the
actuator writes attempted. -/
def twoCycleWriteCount (config : configSpec) (w1 w2 : ℤ → Option String)
    (s0 : ℚ) (chips : List Chip) : ℕ :=
  let r1 := workStep config w1 s0 chips
  writeCount r1 + writeCount (workStep config w2 r1.1 chips)

/-- The example configuration of the specification (mode `mean`,
minSpeed 1500, maxSpeed 5000, normalTemp 40, highTemp 70), with the default
fan identifier and output of src/main.go lines 36-46 and an empty pattern
set (match-all). -/
def baseConfig : configSpec :=
  { Mode := "mean"
    Interval := "3s"
    MinSpeed := 1500
    MaxSpeed := 5000
    HighTemp := 70
    NormalTemp := 40
    Fan := "applesmc-isa-0300:Master"
    Output := "/sys/devices/platform/applesmc.768/fan1_output"
    Sensors := []
    sensors := [] }

/-! ### Fold infrastructure -/

theorem foldl_lastUpd (p : Reading → Bool) (l : List Reading) (a : Option Reading) :
    l.foldl (fun acc r => if p r then some r else acc) a =
      (lastMatching p l).elim a some := by
  induction l generalizing a with
  | nil => rfl
  | cons x t ih =>
    have hx : lastMatching p (x :: t) =
        (lastMatching p t).elim (if p x then some x else none) some := by
      show List.foldl _ (if p x then some x else none) t = _
      exact ih _
    rw [List.foldl_cons, ih, hx]
    cases lastMatching p t with
    | some r => rfl
    | none => cases hp : p x <;> simp [hp]

theorem lastMatching_cons (p : Reading → Bool) (x : Reading) (t : List Reading) :
    lastMatching p (x :: t) =
      (lastMatching p t).elim (if p x then some x else none) some := by
  show List.foldl _ (if p x then some x else none) t = _
  exact foldl_lastUpd p t _

theorem lastMatching_mem_aux (p : Reading → Bool) (l : List Reading) (r : Reading)
    (h : lastMatching p l = some r) : r ∈ l ∧ p r = true := by
  induction l with
  | nil => exact absurd h (by simp [lastMatching])
  | cons x t ih =>
    rw [lastMatching_cons] at h
    cases ht : lastMatching p t with
    | some s =>
      rw [ht] at h
      injection h with h2
      subst h2
      exact ⟨List.mem_cons_of_mem x (ih ht).1, (ih ht).2⟩
    | none =>
      rw [ht] at h
      cases hp : p x with
      | true =>
        rw [hp] at h
        simp only [Option.elim, if_true] at h
        injection h with h2
        subst h2
        exact ⟨List.mem_cons_self x t, hp⟩
      | false =>
        rw [hp] at h
        simp only [Option.elim, if_false] at h
        exact absurd h (by simp)

theorem lastMatching_eq_none_iff (p : Reading → Bool) (l : List Reading) :
    lastMatching p l = none ↔ ∀ r ∈ l, p r = false := by
  induction l with
  | nil => simp [lastMatching]
  | cons x t ih =>
    rw [lastMatching_cons]
    cases ht : lastMatching p t with
    | some r =>
      simp only [Option.elim]
      constructor
      · intro h; exact absurd h (by simp)
      · intro h
        have hr := lastMatching_mem_aux p t r ht
        exact absurd (h r (List.mem_cons_of_mem x hr.1)) (by simp [hr.2])
    | none =>
      cases hp : p x with
      | true =>
        simp only [Option.elim, if_true]
        constructor
        · intro h; exact absurd h (by simp)
        · intro h; exact absurd (h x (List.mem_cons_self x t)) (by simp [hp])
      | false =>
        simp only [Option.elim, if_false]
        constructor
        · intro _ r hr
          rcases List.mem_cons.mp hr with h | h
          · subst h; exact hp
          · exact (ih.mp ht) r h
        · intro _; rfl

theorem lastMatching_ne_none_iff (p : Reading → Bool) (l : List Reading) :
    lastMatching p l ≠ none ↔ ∃ r ∈ l, p r = true := by
  rw [Ne, lastMatching_eq_none_iff]
  push_neg
  constructor
  · rintro ⟨r, hr, hp⟩
    exact ⟨r, hr, by revert hp; cases p r <;> simp⟩
  · rintro ⟨r, hr, hp⟩
    exact ⟨r, hr, by simp [hp]⟩

theorem mapLookup_filter_ne (m : sensorsValues) (n k : String)
    (h : ¬ n = k) : mapLookup (m.filter fun p => !(p.1 == n)) k = mapLookup m k := by
  induction m with
  | nil => rfl
  | cons p t ih =>
    by_cases hp : p.1 == n
    · have hpn : p.1 = n := by simpa using hp
      have hpk : ¬ (p.1 == k) = true := by simp [hpn, h]
      rw [List.filter_cons, if_neg (by simp [hp]), ih]
      show mapLookup t k = if p.1 == k then some p.2 else mapLookup t k
      rw [if_neg hpk]
    · rw [List.filter_cons, if_pos (by simp [hp])]
      show (if p.1 == k then some p.2 else _) = (if p.1 == k then some p.2 else _)
      by_cases hk : p.1 == k
      · rw [if_pos hk, if_pos hk]
      · rw [if_neg hk, if_neg hk, ih]

theorem mapLookup_mapInsert (m : sensorsValues) (n k : String) (v : ℚ) :
    mapLookup (mapInsert m n v) k = if n = k then some v else mapLookup m k := by
  show (if n == k then some v else mapLookup (m.filter fun p => !(p.1 == n)) k) = _
  by_cases h : n = k
  · rw [if_pos (by simp [h]), if_pos h]
  · rw [if_neg (by simp [h]), if_neg h, mapLookup_filter_ne m n k h]

theorem mapLookup_eq_none_iff (m : sensorsValues) (k : String) :
    mapLookup m k = none ↔ k ∉ m.map Prod.fst := by
  induction m with
  | nil => simp [mapLookup]
  | cons p t ih =>
    by_cases hp : p.1 == k
    · have hpk : p.1 = k := by simpa using hp
      show (if p.1 == k then some p.2 else mapLookup t k) = none ↔ _
      rw [if_pos hp]
      simp [hpk]
    · have hpk : ¬ p.1 = k := by simpa using hp
      show (if p.1 == k then some p.2 else mapLookup t k) = none ↔ _
      rw [if_neg hp, ih]
      simp [Ne.symm hpk]

theorem mapInsert_keys_nodup (m : sensorsValues) (k : String) (v : ℚ)
    (h : (m.map Prod.fst).Nodup) : ((mapInsert m k v).map Prod.fst).Nodup := by
  unfold mapInsert
  rw [List.map_cons, List.nodup_cons]
  constructor
  · intro hmem
    rcases List.mem_map.mp hmem with ⟨p, hp, hpk⟩
    have := (List.mem_filter.mp hp).2
    rw [hpk] at this
    simp at this
  · exact h.sublist ((List.filter_sublist m).map Prod.fst)

/-! ### The fetch loop: fan component, lookup, key uniqueness -/

theorem fetch_fan_comp (fanName : String) (res : List (String → Bool))
    (l : List Reading) (acc : sensorsValues × ℤ) :
    (l.foldl (fetchStep fanName res) acc).2 =
      (lastMatching (fun r => trimSpace r.name == fanName) l).elim acc.2
        (fun r => truncQ r.value) := by
  induction l generalizing acc with
  | nil => rfl
  | cons x t ih =>
    rw [List.foldl_cons, ih,
      lastMatching_cons (fun r => trimSpace r.name == fanName) x t]
    by_cases hfan : trimSpace x.name == fanName
    · have hstep : (fetchStep fanName res acc x).2 = truncQ x.value := by
        unfold fetchStep
        rw [if_pos hfan]
      rw [hstep, hfan]
      cases lastMatching (fun r => trimSpace r.name == fanName) t <;> rfl
    · have hstep : (fetchStep fanName res acc x).2 = acc.2 := by
        unfold fetchStep
        rw [if_neg hfan]
        by_cases hre : (res.length != 0 && !(res.any fun re => re x.name)) = true
        · rw [if_pos hre]
        · rw [if_neg hre]
      rw [hstep]
      cases lastMatching (fun r => trimSpace r.name == fanName) t <;> simp [hfan]

theorem fetchStep_not_included (fanName : String) (res : List (String → Bool))
    (acc : sensorsValues × ℤ) (x : Reading)
    (h : included fanName res x = false) :
    (fetchStep fanName res acc x).1 = acc.1 := by
  unfold included at h
  unfold fetchStep
  by_cases hfan : trimSpace x.name == fanName
  · rw [if_pos hfan]
  · rw [if_neg hfan]
    have h2 : (res.length == 0 || res.any fun re => re x.name) = false := by
      revert h
      cases res.length == 0 || res.any fun re => re x.name <;> simp [hfan]
    have : (res.length != 0 && !(res.any fun re => re x.name)) = true := by
      revert h2
      cases hl : res.length == 0 <;> cases ha : res.any fun re => re x.name <;>
        simp [Nat.beq_eq, bne] at * <;> simp [hl, ha, *]
    rw [if_pos this]

theorem fetchStep_included (fanName : String) (res : List (String → Bool))
    (acc : sensorsValues × ℤ) (x : Reading)
    (h : included fanName res x = true) :
    (fetchStep fanName res acc x).1 = mapInsert acc.1 x.name x.value := by
  unfold included at h
  have hfan : (trimSpace x.name == fanName) = false := by
    revert h
    cases trimSpace x.name == fanName <;> simp
  have h2 : (res.length == 0 || res.any fun re => re x.name) = true := by
    revert h
    rw [hfan]
    cases res.length == 0 || res.any fun re => re x.name <;> simp
  unfold fetchStep
  rw [if_neg (by simp [hfan])]
  have : (res.length != 0 && !(res.any fun re => re x.name)) = false := by
    revert h2
    cases hl : res.length == 0 <;> cases ha : res.any fun re => re x.name <;>
      simp [bne] at * <;> simp [hl, ha, *]
  rw [if_neg (by simp [this])]

theorem fetch_lookup (fanName : String) (res : List (String → Bool))
    (l : List Reading) (acc : sensorsValues × ℤ) (k : String) :
    mapLookup (l.foldl (fetchStep fanName res) acc).1 k =
      (lastMatching (fun r => r.name == k && included fanName res r) l).elim
        (mapLookup acc.1 k) (fun r => some r.value) := by
  induction l generalizing acc with
  | nil => rfl
  | cons x t ih =>
    rw [List.foldl_cons, ih,
      lastMatching_cons (fun r => r.name == k && included fanName res r) x t]
    by_cases hinc : included fanName res x = true
    · by_cases hk : x.name = k
      · have hp : (x.name == k && included fanName res x) = true := by simp [hk, hinc]
        rw [hp, fetchStep_included fanName res acc x hinc]
        cases lastMatching (fun r => r.name == k && included fanName res r) t with
        | some r => rfl
        | none => simp [mapLookup_mapInsert, hk]
      · have hp : (x.name == k && included fanName res x) = false := by simp [hk]
        rw [hp, fetchStep_included fanName res acc x hinc]
        cases lastMatching (fun r => r.name == k && included fanName res r) t with
        | some r => rfl
        | none => simp [mapLookup_mapInsert, hk]
    · have hinc2 : included fanName res x = false := by
        revert hinc; cases included fanName res x <;> simp
      have hp : (x.name == k && included fanName res x) = false := by simp [hinc2]
      rw [hp, fetchStep_not_included fanName res acc x hinc2]
      cases lastMatching (fun r => r.name == k && included fanName res r) t <;> simp

theorem fetch_keys_nodup (fanName : String) (res : List (String → Bool))
    (l : List Reading) (acc : sensorsValues × ℤ)
    (h : (acc.1.map Prod.fst).Nodup) :
    ((l.foldl (fetchStep fanName res) acc).1.map Prod.fst).Nodup := by
  induction l generalizing acc with
  | nil => exact h
  | cons x t ih =>
    rw [List.foldl_cons]
    apply ih
    by_cases hinc : included fanName res x = true
    · rw [fetchStep_included fanName res acc x hinc]
      exact mapInsert_keys_nodup acc.1 x.name x.value h
    · rw [fetchStep_not_included fanName res acc x
        (by revert hinc; cases included fanName res x <;> simp)]
      exact h

/-! ### The aggregation loop of computeNewFanSpeed -/

theorem maxFold_le (l : sensorsValues) (a : ℚ) :
    a ≤ l.foldl (fun acc p => if p.2 > acc then p.2 else acc) a ∧
    ∀ p ∈ l, p.2 ≤ l.foldl (fun acc p => if p.2 > acc then p.2 else acc) a := by
  induction l generalizing a with
  | nil => exact ⟨le_refl a, by simp⟩
  | cons x t ih =>
    rw [List.foldl_cons]
    have hbase : a ≤ if x.2 > a then x.2 else a := by
      by_cases hx : x.2 > a
      · rw [if_pos hx]; exact le_of_lt hx
      · rw [if_neg hx]
    have hx2 : x.2 ≤ if x.2 > a then x.2 else a := by
      by_cases hx : x.2 > a
      · rw [if_pos hx]
      · rw [if_neg hx]; exact le_of_not_lt hx
    refine ⟨le_trans hbase (ih _).1, ?_⟩
    intro p hp
    rcases List.mem_cons.mp hp with h | h
    · subst h; exact le_trans hx2 (ih _).1
    · exact (ih _).2 p h

theorem maxFold_mem (l : sensorsValues) (a : ℚ) :
    l.foldl (fun acc p => if p.2 > acc then p.2 else acc) a = a ∨
    l.foldl (fun acc p => if p.2 > acc then p.2 else acc) a ∈ l.map Prod.snd := by
  induction l generalizing a with
  | nil => exact Or.inl rfl
  | cons x t ih =>
    rw [List.foldl_cons]
    rcases ih (if x.2 > a then x.2 else a) with h | h
    · by_cases hx : x.2 > a
      · right
        rw [h, if_pos hx]
        simp
      · left
        rw [h, if_neg hx]
    · right
      rw [List.map_cons]
      exact List.mem_cons_of_mem _ h

theorem maxFold_const (l : sensorsValues) (a : ℚ)
    (h : ∀ p ∈ l, ¬ p.2 > a) :
    l.foldl (fun acc p => if p.2 > acc then p.2 else acc) a = a := by
  induction l with
  | nil => rfl
  | cons x t ih =>
    rw [List.foldl_cons, if_neg (h x (List.mem_cons_self x t))]
    exact ih fun p hp => h p (List.mem_cons_of_mem x hp)

/-- In mode `mean`, `computeNewFanSpeed` always takes the first branch of
the switch (src/main.go lines 180-182). -/
theorem meanEval (config : configSpec) (values : sensorsValues)
    (h : config.Mode = "mean") :
    computeNewFanSpeed config values =
      Except.ok (sumValues values / (values.length : ℚ),
        speedOf config (sumValues values / (values.length : ℚ))) := by
  unfold computeNewFanSpeed
  rw [if_pos h]

/-- In mode `max`, `computeNewFanSpeed` takes the second branch of the
switch (src/main.go lines 183-184). -/
theorem maxEval (config : configSpec) (values : sensorsValues)
    (h : config.Mode = "max") :
    computeNewFanSpeed config values =
      Except.ok (maxValues values, speedOf config (maxValues values)) := by
  unfold computeNewFanSpeed
  rw [if_neg (by rw [h]; decide), if_pos h]

/-- With any other mode string, `computeNewFanSpeed` returns the error of
the default case (src/main.go lines 185-186). -/
theorem modeErrEval (config : configSpec) (values : sensorsValues)
    (h1 : ¬ config.Mode = "mean") (h2 : ¬ config.Mode = "max") :
    computeNewFanSpeed config values =
      Except.error ("unrecognized mode " ++ config.Mode ++ ". should be max or mean") := by
  unfold computeNewFanSpeed
  rw [if_neg h1, if_neg h2]

/-! ### Case analysis of one control cycle -/

theorem workStep_empty (config : configSpec) (w : ℤ → Option String)
    (s : ℚ) (chips : List Chip)
    (h : (fetchValues config.Fan config.sensors chips).1 = []) :
    workStep config w s chips = (s, Outcome.skipEmpty, none) := by
  simp only [workStep]
  rw [h]
  rfl

theorem workStep_err (config : configSpec) (w : ℤ → Option String)
    (s : ℚ) (chips : List Chip) (e : String)
    (hne : ¬ (fetchValues config.Fan config.sensors chips).1 = [])
    (hc : cycleValue config chips = Except.error e) :
    workStep config w s chips = (s, Outcome.failMode e, none) := by
  simp only [workStep]
  unfold cycleValue at hc
  rw [if_neg (fun hl => hne (List.length_eq_zero.mp hl)), hc]

theorem workStep_ok (config : configSpec) (w : ℤ → Option String)
    (s : ℚ) (chips : List Chip) (temp : ℚ) (speed : ℤ)
    (hne : ¬ (fetchValues config.Fan config.sensors chips).1 = [])
    (hc : cycleValue config chips = Except.ok (temp, speed)) :
    workStep config w s chips =
      if temp = s then (s, Outcome.skipUnchanged, none)
      else
        match w speed with
        | some e => (s, Outcome.failWrite ("setting fan speed: " ++ e), some speed)
        | none => (temp, Outcome.success speed, some speed) := by
  simp only [workStep]
  unfold cycleValue at hc
  rw [if_neg (fun hl => hne (List.length_eq_zero.mp hl)), hc]

/-! ### Bridging the fold lemmas to fetchValues -/

theorem fetchValues_lookup (fanName : String) (res : List (String → Bool))
    (chips : List Chip) (k : String) :
    mapLookup (fetchValues fanName res chips).1 k =
      (lastMatching (fun r => r.name == k && included fanName res r)
        (allReadings chips)).elim none (fun r => some r.value) :=
  fetch_lookup fanName res (allReadings chips) ([], 0) k

theorem fetchValues_fan (fanName : String) (res : List (String → Bool))
    (chips : List Chip) :
    (fetchValues fanName res chips).2 =
      (lastMatching (fun r => trimSpace r.name == fanName)
        (allReadings chips)).elim 0 (fun r => truncQ r.value) :=
  fetch_fan_comp fanName res (allReadings chips) ([], 0)

theorem fetchValues_keys_nodup (fanName : String) (res : List (String → Bool))
    (chips : List Chip) :
    ((fetchValues fanName res chips).1.map Prod.fst).Nodup :=
  fetch_keys_nodup fanName res (allReadings chips) ([], 0) (by simp)

theorem fetchValues_mem_keys (fanName : String) (res : List (String → Bool))
    (chips : List Chip) (k : String) :
    k ∈ (fetchValues fanName res chips).1.map Prod.fst ↔
      ∃ r ∈ allReadings chips, (r.name == k && included fanName res r) = true := by
  rw [← not_iff_not, ← mapLookup_eq_none_iff, fetchValues_lookup]
  cases h : lastMatching (fun r => r.name == k && included fanName res r)
      (allReadings chips) with
  | some r =>
    simp only [Option.elim]
    constructor
    · intro hx; exact absurd hx (by simp)
    · intro hx
      have hm := lastMatching_mem_aux _ _ _ h
      exact absurd ⟨r, hm.1, hm.2⟩ hx
  | none =>
    simp only [Option.elim]
    constructor
    · intro _ hx
      rcases hx with ⟨r, hr, hp⟩
      have hc := (lastMatching_eq_none_iff _ _).mp h r hr
      rw [hp] at hc
      exact Bool.noConfusion hc
    · intro _
      trivial

/-! ### Concrete fixtures for witnesses and counterexamples -/

/-- baseConfig with mode `max`. -/
def maxCfg : configSpec := { baseConfig with Mode := "max" }

/-- baseConfig with the invalid mode `median` of the specification example. -/
def medianCfg : configSpec := { baseConfig with Mode := "median" }

/-- baseConfig with the degenerate temperature bounds
`highTemp = normalTemp = 40`. -/
def degenerateCfg : configSpec := { baseConfig with HighTemp := 40 }

/-- One detected chip with one temperature feature at 50 degrees. -/
def oneChip : List Chip :=
  [{ id := "coretemp", features := [{ label := "Core 0", value := 50 }] }]

/-- One detected chip with one temperature feature at 0 degrees. -/
def zeroChip : List Chip :=
  [{ id := "coretemp", features := [{ label := "Core 0", value := 0 }] }]

/-- A chip exposing the fan reading (composed name equal to the configured
fan identifier) next to a temperature feature. -/
def fanChip : List Chip :=
  [{ id := "applesmc-isa-0300",
     features := [{ label := "Master", value := 1800 },
                  { label := "T1", value := 42 }] }]

theorem fetchOneChip :
    fetchValues baseConfig.Fan baseConfig.sensors oneChip =
      ([("coretemp:Core 0", 50)], 0) := by decide

theorem cycleOneChip : cycleValue baseConfig oneChip = Except.ok (50, 2666) := by
  unfold cycleValue
  rw [fetchOneChip, meanEval baseConfig _ rfl]
  norm_num [sumValues, speedOf, truncQ, baseConfig]

theorem meanExampleEval :
    computeNewFanSpeed baseConfig [("core0", 50), ("core1", 60)] =
      Except.ok (55, 3250) := by
  rw [meanEval baseConfig _ rfl]
  norm_num [sumValues, speedOf, truncQ, baseConfig]

/-! ### C1 -/

/-- C1: for every control value the computed set-point is the truncation
toward zero of `minSpeed + (maxSpeed - minSpeed) / (highTemp - normalTemp)
* (value - normalTemp)`; with the example configuration (minSpeed 1500,
maxSpeed 5000, normalTemp 40, highTemp 70) and control value 55 the result
is 3250. -/
theorem C1_speed_mapping (config : configSpec) (values : sensorsValues)
    (temp : ℚ) (speed : ℤ)
    (h : computeNewFanSpeed config values = Except.ok (temp, speed)) :
    speed = truncQ ((config.MinSpeed : ℚ) +
      ((config.MaxSpeed : ℚ) - (config.MinSpeed : ℚ)) /
        (config.HighTemp - config.NormalTemp) * (temp - config.NormalTemp)) ∧
    computeNewFanSpeed baseConfig [("core0", 50), ("core1", 60)] =
      Except.ok (55, 3250) := by
  refine ⟨?_, meanExampleEval⟩
  have hs : speed = speedOf config temp := by
    by_cases h1 : config.Mode = "mean"
    · rw [meanEval config values h1] at h
      injection h with h2
      have ht := congrArg Prod.fst h2
      have hsp := congrArg Prod.snd h2
      simp only [] at ht hsp
      rw [← hsp, ← ht]
    · by_cases h2 : config.Mode = "max"
      · rw [maxEval config values h2] at h
        injection h with h3
        have ht := congrArg Prod.fst h3
        have hsp := congrArg Prod.snd h3
        simp only [] at ht hsp
        rw [← hsp, ← ht]
      · rw [modeErrEval config values h1 h2] at h
        exact absurd h (by simp)
  rw [hs]
  unfold speedOf
  congr 1
  push_cast
  ring

/-- C1 witness: the theorem applied to the specification example. -/
theorem C1_speed_mapping_witness :
    (3250 : ℤ) = truncQ ((baseConfig.MinSpeed : ℚ) +
      ((baseConfig.MaxSpeed : ℚ) - (baseConfig.MinSpeed : ℚ)) /
        (baseConfig.HighTemp - baseConfig.NormalTemp) *
        ((55 : ℚ) - baseConfig.NormalTemp)) ∧
    computeNewFanSpeed baseConfig [("core0", 50), ("core1", 60)] =
      Except.ok (55, 3250) :=
  C1_speed_mapping baseConfig [("core0", 50), ("core1", 60)] 55 3250 meanExampleEval

/-! ### C2 -/

/-- C2 counterexample: in mode `max` on the snapshot `{a ↦ -5}` the
aggregation returns 0, which is not an element of the snapshot values, so
it is not the maximum element (-5).  The accumulator of the maximum loop
starts at 0 and is never lowered. -/
theorem C2_counterexample :
    computeNewFanSpeed maxCfg [("a", -5)] =
      Except.ok (0, speedOf maxCfg 0) ∧
    (0 : ℚ) ∉ ([(("a" : String), (-5 : ℚ))].map Prod.snd) := by
  constructor
  · rw [maxEval maxCfg _ rfl]
    norm_num [maxValues]
  · norm_num

/-- C2 amended: in mode `max` on a non-empty snapshot the aggregation
returns the maximum-loop value, which is the maximum element whenever at
least one value is nonnegative, and 0 (the loop accumulator initial value)
when every value is negative. -/
theorem C2_max_mode_amended (config : configSpec) (values : sensorsValues)
    (hmode : config.Mode = "max") (hne : values ≠ []) :
    computeNewFanSpeed config values =
      Except.ok (maxValues values, speedOf config (maxValues values)) ∧
    ((∃ p ∈ values, (0 : ℚ) ≤ p.2) →
      maxValues values ∈ values.map Prod.snd ∧
      ∀ p ∈ values, p.2 ≤ maxValues values) ∧
    ((∀ p ∈ values, p.2 < 0) → maxValues values = 0) := by
  have hub : ∀ p ∈ values, p.2 ≤ maxValues values := (maxFold_le values 0).2
  refine ⟨maxEval config values hmode, ?_, ?_⟩
  · rintro ⟨p0, hp0, hp0v⟩
    refine ⟨?_, hub⟩
    rcases maxFold_mem values 0 with h | h
    · have hz : p0.2 = 0 := le_antisymm (h ▸ hub p0 hp0) hp0v
      have : maxValues values = p0.2 := by
        show values.foldl _ 0 = p0.2
        rw [h, hz]
      rw [this]
      exact List.mem_map_of_mem Prod.snd hp0
    · exact h
  · intro hneg
    exact maxFold_const values 0 fun p hp => lt_asymm (hneg p hp)

/-- C2 witness: the amended theorem applied to mode `max` on the snapshot
`{a ↦ 3, b ↦ 7}`. -/
theorem C2_max_mode_amended_witness :
    computeNewFanSpeed maxCfg [("a", 3), ("b", 7)] =
      Except.ok (maxValues [("a", 3), ("b", 7)],
        speedOf maxCfg (maxValues [("a", 3), ("b", 7)])) ∧
    ((∃ p ∈ ([("a", 3), ("b", 7)] : sensorsValues), (0 : ℚ) ≤ p.2) →
      maxValues [("a", 3), ("b", 7)] ∈
        ([("a", 3), ("b", 7)] : sensorsValues).map Prod.snd ∧
      ∀ p ∈ ([("a", 3), ("b", 7)] : sensorsValues),
        p.2 ≤ maxValues [("a", 3), ("b", 7)]) ∧
    ((∀ p ∈ ([("a", 3), ("b", 7)] : sensorsValues), p.2 < 0) →
      maxValues [("a", 3), ("b", 7)] = 0) :=
  C2_max_mode_amended maxCfg [("a", 3), ("b", 7)] rfl (by simp)

/-! ### C3 -/

/-- C3 counterexample: with the invalid mode `median`, the load path still
starts the loop (its outcome never depends on the mode), and a cycle then
runs and fails on the mode check inside `computeNewFanSpeed`: a control
cycle does run with an invalid mode, and the mode is validated per cycle,
not once at configuration load time. -/
theorem C3_counterexample :
    mainStartsLoop medianCfg none none (fun _ => none) (fun _ => none) = true ∧
    workStep medianCfg okWrite 0 oneChip =
      (0, Outcome.failMode ("unrecognized mode " ++ "median" ++ ". should be max or mean"),
        none) := by
  constructor
  · rfl
  · have hf : fetchValues medianCfg.Fan medianCfg.sensors oneChip =
        ([("coretemp:Core 0", 50)], 0) := by decide
    have hc : cycleValue medianCfg oneChip =
        Except.error ("unrecognized mode " ++ "median" ++ ". should be max or mean") := by
      unfold cycleValue
      rw [hf]
      exact modeErrEval medianCfg _ (by decide) (by decide)
    exact workStep_err medianCfg okWrite 0 oneChip _ (by rw [hf]; simp) hc

/-- C3 amended: a mode string other than `mean` or `max` is NOT rejected at
configuration load time — the load outcome is identical to that of a valid
mode, so the loop starts — and every cycle with a non-empty snapshot then
re-validates the mode inside `computeNewFanSpeed`, failing that cycle with
the `unrecognized mode` error while leaving the state unchanged. -/
theorem C3_mode_checked_per_cycle (config : configSpec)
    (writeErr : ℤ → Option String) (s : ℚ) (chips : List Chip)
    (readErr yamlErr : Option String) (rc pd : String → Option String)
    (h1 : config.Mode ≠ "mean") (h2 : config.Mode ≠ "max")
    (hne : (fetchValues config.Fan config.sensors chips).1 ≠ []) :
    mainStartsLoop config readErr yamlErr rc pd =
      mainStartsLoop { config with Mode := "mean" } readErr yamlErr rc pd ∧
    workStep config writeErr s chips =
      (s, Outcome.failMode ("unrecognized mode " ++ config.Mode ++ ". should be max or mean"),
        none) := by
  refine ⟨rfl, ?_⟩
  exact workStep_err config writeErr s chips _ hne
    (by unfold cycleValue; exact modeErrEval config _ h1 h2)

/-- C3 witness: the amended theorem applied to mode `median`. -/
theorem C3_mode_checked_per_cycle_witness :
    mainStartsLoop medianCfg none none (fun _ => none) (fun _ => none) =
      mainStartsLoop { medianCfg with Mode := "mean" } none none
        (fun _ => none) (fun _ => none) ∧
    workStep medianCfg okWrite 0 oneChip =
      (0, Outcome.failMode ("unrecognized mode " ++ medianCfg.Mode ++ ". should be max or mean"),
        none) :=
  C3_mode_checked_per_cycle medianCfg okWrite 0 oneChip none none
    (fun _ => none) (fun _ => none) (by decide) (by decide) (by decide)

/-! ### C4 -/

/-- C4 counterexample: a configuration with `highTemp = normalTemp` passes
the load path (its outcome never depends on the temperature bounds), and
the first cycle still runs: it aggregates, evaluates the mapping whose
divisor `highTemp - normalTemp` is zero, and actuates.  In this exact
rational model `x / 0 = 0`, so the set-point degenerates to `minSpeed`
(Go's float64 division would give an infinity instead); either way no
load-time rejection happens, which is what the claim asserts. -/
theorem C4_counterexample :
    mainStartsLoop degenerateCfg none none (fun _ => none) (fun _ => none) = true ∧
    degenerateCfg.HighTemp - degenerateCfg.NormalTemp = 0 ∧
    workStep degenerateCfg okWrite 0 oneChip = (50, Outcome.success 1500, some 1500) := by
  refine ⟨rfl, by norm_num [degenerateCfg, baseConfig], ?_⟩
  have hf : fetchValues degenerateCfg.Fan degenerateCfg.sensors oneChip =
      ([("coretemp:Core 0", 50)], 0) := by decide
  have hc : cycleValue degenerateCfg oneChip = Except.ok (50, 1500) := by
    unfold cycleValue
    rw [hf, meanEval degenerateCfg _ rfl]
    norm_num [sumValues, speedOf, truncQ, degenerateCfg, baseConfig]
  rw [workStep_ok degenerateCfg okWrite 0 oneChip 50 1500 (by rw [hf]; simp) hc,
    if_neg (by norm_num)]
  rfl

/-- C4 amended: a configuration with `highTemp = normalTemp` is NOT
rejected at load time — the load outcome is identical to that of
non-degenerate bounds — and in mode `mean` the aggregation and the mapping
still run, the mapping being evaluated with the zero divisor
`highTemp - normalTemp`. -/
theorem C4_degenerate_bounds_not_rejected (config : configSpec)
    (readErr yamlErr : Option String) (rc pd : String → Option String)
    (values : sensorsValues)
    (heq : config.HighTemp = config.NormalTemp) (hmode : config.Mode = "mean") :
    mainStartsLoop config readErr yamlErr rc pd =
      mainStartsLoop { config with HighTemp := config.NormalTemp + 1 }
        readErr yamlErr rc pd ∧
    config.HighTemp - config.NormalTemp = 0 ∧
    computeNewFanSpeed config values =
      Except.ok (sumValues values / (values.length : ℚ),
        speedOf config (sumValues values / (values.length : ℚ))) :=
  ⟨rfl, by rw [heq, sub_self], meanEval config values hmode⟩

/-- C4 witness: the amended theorem applied to the degenerate bounds 40/40. -/
theorem C4_degenerate_bounds_not_rejected_witness :
    mainStartsLoop degenerateCfg none none (fun _ => none) (fun _ => none) =
      mainStartsLoop { degenerateCfg with HighTemp := degenerateCfg.NormalTemp + 1 }
        none none (fun _ => none) (fun _ => none) ∧
    degenerateCfg.HighTemp - degenerateCfg.NormalTemp = 0 ∧
    computeNewFanSpeed degenerateCfg [("coretemp:Core 0", 50)] =
      Except.ok (sumValues [("coretemp:Core 0", 50)] /
          ((([("coretemp:Core 0", 50)] : sensorsValues)).length : ℚ),
        speedOf degenerateCfg (sumValues [("coretemp:Core 0", 50)] /
          ((([("coretemp:Core 0", 50)] : sensorsValues)).length : ℚ))) :=
  C4_degenerate_bounds_not_rejected degenerateCfg none none (fun _ => none)
    (fun _ => none) [("coretemp:Core 0", 50)] rfl rfl

/-! ### C5 -/

/-- C5 counterexample: over the unchanged snapshot `{coretemp:Core 0 ↦ 0}`
with `lastAppliedValue = 0` (its initial value), the aggregated control
value already equals the last applied one, so both of two consecutive
cycles Skip and zero actuator writes are performed — not exactly one as the
claim states. -/
theorem C5_counterexample :
    twoCycleWriteCount baseConfig okWrite okWrite 0 zeroChip = 0 ∧
    workStep baseConfig okWrite 0 zeroChip = (0, Outcome.skipUnchanged, none) := by
  have hf : fetchValues baseConfig.Fan baseConfig.sensors zeroChip =
      ([("coretemp:Core 0", 0)], 0) := by decide
  have hc : cycleValue baseConfig zeroChip = Except.ok (0, speedOf baseConfig 0) := by
    unfold cycleValue
    rw [hf, meanEval baseConfig _ rfl]
    norm_num [sumValues]
  have hw : workStep baseConfig okWrite 0 zeroChip = (0, Outcome.skipUnchanged, none) := by
    rw [workStep_ok baseConfig okWrite 0 zeroChip 0 (speedOf baseConfig 0)
      (by rw [hf]; simp) hc, if_pos rfl]
  refine ⟨?_, hw⟩
  simp [twoCycleWriteCount, hw, writeCount]

/-- C5 amended: if the aggregated control value equals `lastAppliedValue`
(exact equality) the cycle performs no actuator write and leaves the state
unchanged; consequently, two consecutive cycles over an unchanged provider
snapshot (with writes succeeding) perform AT MOST one actuator write:
exactly one — with the second cycle a Skip — when the first cycle's value
differs from `lastAppliedValue`, and zero (both cycles Skip) when it is
already equal. -/
theorem C5_skip_guard_amended (config : configSpec) (s0 : ℚ) (chips : List Chip)
    (temp : ℚ) (speed : ℤ)
    (hne : (fetchValues config.Fan config.sensors chips).1 ≠ [])
    (hc : cycleValue config chips = Except.ok (temp, speed)) :
    (temp = s0 → ∀ w : ℤ → Option String,
      workStep config w s0 chips = (s0, Outcome.skipUnchanged, none)) ∧
    (temp = s0 → twoCycleWriteCount config okWrite okWrite s0 chips = 0) ∧
    (temp ≠ s0 →
      workStep config okWrite s0 chips = (temp, Outcome.success speed, some speed) ∧
      workStep config okWrite temp chips = (temp, Outcome.skipUnchanged, none) ∧
      twoCycleWriteCount config okWrite okWrite s0 chips = 1) := by
  have hskip : ∀ w : ℤ → Option String, temp = s0 →
      workStep config w s0 chips = (s0, Outcome.skipUnchanged, none) := by
    intro w ht
    rw [workStep_ok config w s0 chips temp speed hne hc, if_pos ht]
  refine ⟨fun ht w => hskip w ht, fun ht => ?_, fun ht => ?_⟩
  · have h1 := hskip okWrite ht
    simp [twoCycleWriteCount, h1, writeCount, ht]
  · have h1 : workStep config okWrite s0 chips = (temp, Outcome.success speed, some speed) := by
      rw [workStep_ok config okWrite s0 chips temp speed hne hc, if_neg ht]
      rfl
    have h2 : workStep config okWrite temp chips = (temp, Outcome.skipUnchanged, none) := by
      rw [workStep_ok config okWrite temp chips temp speed hne hc, if_pos rfl]
    refine ⟨h1, h2, ?_⟩
    simp [twoCycleWriteCount, h1, h2, writeCount]

/-- C5 witness: the amended theorem applied to the snapshot
`{coretemp:Core 0 ↦ 50}` and `lastAppliedValue = 0`. -/
theorem C5_skip_guard_amended_witness :
    ((50 : ℚ) = 0 → ∀ w : ℤ → Option String,
      workStep baseConfig w 0 oneChip = (0, Outcome.skipUnchanged, none)) ∧
    ((50 : ℚ) = 0 → twoCycleWriteCount baseConfig okWrite okWrite 0 oneChip = 0) ∧
    ((50 : ℚ) ≠ 0 →
      workStep baseConfig okWrite 0 oneChip = (50, Outcome.success 2666, some 2666) ∧
      workStep baseConfig okWrite 50 oneChip = (50, Outcome.skipUnchanged, none) ∧
      twoCycleWriteCount baseConfig okWrite okWrite 0 oneChip = 1) :=
  C5_skip_guard_amended baseConfig 0 oneChip 50 2666 (by rw [fetchOneChip]; simp)
    cycleOneChip

/-! ### C6 -/

/-- C6: a reading whose trimmed composed name equals the fan identifier is
never a key of the temperature snapshot, whatever the pattern set; the
returned `fanSpeed` is 0 when no reading matches the fan identifier and the
truncated value of the matching reading when exactly one does. -/
theorem C6_fan_reading_exclusive (fanName : String) (res : List (String → Bool))
    (chips : List Chip) :
    (∀ k ∈ (fetchValues fanName res chips).1.map Prod.fst, trimSpace k ≠ fanName) ∧
    (((allReadings chips).filter fun r => trimSpace r.name == fanName) = [] →
      (fetchValues fanName res chips).2 = 0) ∧
    (∀ r : Reading,
      ((allReadings chips).filter fun r => trimSpace r.name == fanName) = [r] →
      (fetchValues fanName res chips).2 = truncQ r.value) := by
  refine ⟨?_, ?_, ?_⟩
  · intro k hk
    rcases (fetchValues_mem_keys fanName res chips k).mp hk with ⟨r, hr, hp⟩
    have hp2 : (r.name == k) = true ∧ included fanName res r = true := by
      simpa using hp
    have hname : r.name = k := by simpa using hp2.1
    have h2 := hp2.2
    unfold included at h2
    have h3 : (trimSpace r.name == fanName) = false := by
      revert h2
      cases trimSpace r.name == fanName <;> simp
    rw [← hname]
    simpa using h3
  · intro hfil
    rw [fetchValues_fan]
    have hnone : lastMatching (fun r => trimSpace r.name == fanName)
        (allReadings chips) = none := by
      rw [lastMatching_eq_none_iff]
      intro r hr
      have := List.filter_eq_nil_iff.mp hfil r hr
      revert this
      cases trimSpace r.name == fanName <;> simp
    rw [hnone]
    rfl
  · intro r hfil
    rw [fetchValues_fan]
    have hrf : r ∈ (allReadings chips).filter fun r => trimSpace r.name == fanName := by
      rw [hfil]
      exact List.mem_cons_self r []
    have hrl := List.mem_filter.mp hrf
    cases hlm : lastMatching (fun r => trimSpace r.name == fanName)
        (allReadings chips) with
    | none =>
      have := (lastMatching_eq_none_iff _ _).mp hlm r hrl.1
      rw [hrl.2] at this
      exact Bool.noConfusion this
    | some s =>
      have hs := lastMatching_mem_aux _ _ _ hlm
      have hmem : s ∈ [r] := hfil ▸ List.mem_filter.mpr ⟨hs.1, hs.2⟩
      have heq : s = r := by simpa using hmem
      rw [heq]
      rfl

/-- C6 witness: the theorem applied to a provider exposing the fan reading
(1800 rpm) and one temperature reading. -/
theorem C6_fan_reading_exclusive_witness :
    trimSpace "applesmc-isa-0300:T1" ≠ "applesmc-isa-0300:Master" ∧
    (fetchValues "applesmc-isa-0300:Master" [] fanChip).2 = truncQ (1800 : ℚ) :=
  ⟨(C6_fan_reading_exclusive "applesmc-isa-0300:Master" [] fanChip).1
      "applesmc-isa-0300:T1" (by decide),
   (C6_fan_reading_exclusive "applesmc-isa-0300:Master" [] fanChip).2.2
      { name := "applesmc-isa-0300:Master", value := 1800 } (by decide)⟩

/-! ### C7 -/

/-- C7: a non-fan reading is always included in the temperature snapshot
when the pattern set is empty, and with a non-empty pattern set it is
included if and only if at least one pattern matches its composed name. -/
theorem C7_pattern_policy (fanName : String) (res : List (String → Bool))
    (chips : List Chip) (r : Reading)
    (hr : r ∈ allReadings chips) (hfan : trimSpace r.name ≠ fanName) :
    (res = [] → r.name ∈ (fetchValues fanName res chips).1.map Prod.fst) ∧
    (r.name ∈ (fetchValues fanName res chips).1.map Prod.fst ↔
      res = [] ∨ ∃ p ∈ res, p r.name = true) := by
  have hfanb : (trimSpace r.name == fanName) = false := beq_eq_false_iff_ne.mpr hfan
  have key : r.name ∈ (fetchValues fanName res chips).1.map Prod.fst ↔
      res = [] ∨ ∃ p ∈ res, p r.name = true := by
    rw [fetchValues_mem_keys]
    constructor
    · rintro ⟨x, hx, hpx⟩
      have hp2 : (x.name == r.name) = true ∧ included fanName res x = true := by
        simpa using hpx
      have hname : x.name = r.name := by simpa using hp2.1
      have h2 := hp2.2
      unfold included at h2
      have h3 : (res.length == 0 || res.any fun re => re x.name) = true := by
        revert h2
        cases res.length == 0 || res.any fun re => re x.name <;> simp
      have h4 : res.length = 0 ∨ (res.any fun re => re x.name) = true := by
        revert h3
        cases hl : res.length == 0 with
        | true => intro _; exact Or.inl (by simpa using hl)
        | false =>
          intro h3
          simp only [Bool.false_or] at h3
          exact Or.inr h3
      rcases h4 with hl | ha
      · exact Or.inl (List.length_eq_zero.mp hl)
      · rcases List.any_eq_true.mp ha with ⟨p, hp, hpv⟩
        exact Or.inr ⟨p, hp, by rw [← hname]; exact hpv⟩
    · intro hcase
      refine ⟨r, hr, ?_⟩
      have h2 : included fanName res r = true := by
        unfold included
        rw [hfanb]
        rcases hcase with h | ⟨p, hp, hpv⟩
        · subst h; simp
        · have ha : (res.any fun re => re r.name) = true :=
            List.any_eq_true.mpr ⟨p, hp, hpv⟩
          simp [ha]
      simp [h2]
  exact ⟨fun hres => key.mpr (Or.inl hres), key⟩

/-- C7 witness: the theorem applied to a non-fan reading with the empty
pattern set. -/
theorem C7_pattern_policy_witness :
    (([] : List (String → Bool)) = [] →
      "applesmc-isa-0300:T1" ∈
        (fetchValues "applesmc-isa-0300:Master" [] fanChip).1.map Prod.fst) ∧
    ("applesmc-isa-0300:T1" ∈
        (fetchValues "applesmc-isa-0300:Master" [] fanChip).1.map Prod.fst ↔
      ([] : List (String → Bool)) = [] ∨
        ∃ p ∈ ([] : List (String → Bool)), p "applesmc-isa-0300:T1" = true) :=
  C7_pattern_policy "applesmc-isa-0300:Master" [] fanChip
    { name := "applesmc-isa-0300:T1", value := 42 } (by decide) (by decide)

/-! ### C8 -/

/-- C8: when the actuator write fails, the cycle ends as a write failure
with the reported message, `lastAppliedValue` is left unchanged, and a next
cycle over the same provider data gets past the same comparison and
re-attempts the write of the same set-point. -/
theorem C8_actuator_failure (config : configSpec) (s : ℚ) (chips : List Chip)
    (w w2 : ℤ → Option String) (temp : ℚ) (speed : ℤ) (e : String)
    (hne : (fetchValues config.Fan config.sensors chips).1 ≠ [])
    (hc : cycleValue config chips = Except.ok (temp, speed))
    (hneq : temp ≠ s) (hw : w speed = some e) :
    workStep config w s chips =
      (s, Outcome.failWrite ("setting fan speed: " ++ e), some speed) ∧
    (workStep config w2 s chips).2.2 = some speed := by
  constructor
  · rw [workStep_ok config w s chips temp speed hne hc, if_neg hneq, hw]
  · rw [workStep_ok config w2 s chips temp speed hne hc, if_neg hneq]
    cases w2 speed <;> rfl

/-- C8 witness: the theorem applied to a failing write (`permission denied`)
of set-point 2666. -/
theorem C8_actuator_failure_witness :
    workStep baseConfig (fun _ => some "permission denied") 0 oneChip =
      (0, Outcome.failWrite ("setting fan speed: " ++ "permission denied"), some 2666) ∧
    (workStep baseConfig okWrite 0 oneChip).2.2 = some 2666 :=
  C8_actuator_failure baseConfig 0 oneChip (fun _ => some "permission denied")
    okWrite 50 2666 "permission denied" (by rw [fetchOneChip]; simp) cycleOneChip
    (by norm_num) rfl

/-! ### C9 -/

/-- C9: with an empty temperature snapshot the cycle Skips with the
diagnostic outcome and unchanged state, before the aggregator is reached;
and on any non-empty snapshot (the only ones the aggregator is invoked on)
the `mean` division has the nonzero divisor `length values`. -/
theorem C9_empty_snapshot_guard (config : configSpec) (w : ℤ → Option String)
    (s : ℚ) (chips : List Chip)
    (h : (fetchValues config.Fan config.sensors chips).1 = []) :
    workStep config w s chips = (s, Outcome.skipEmpty, none) ∧
    ∀ values : sensorsValues, values ≠ [] →
      ((values.length : ℚ) ≠ 0 ∧
        (config.Mode = "mean" →
          computeNewFanSpeed config values =
            Except.ok (sumValues values / (values.length : ℚ),
              speedOf config (sumValues values / (values.length : ℚ))))) := by
  refine ⟨workStep_empty config w s chips h, ?_⟩
  intro values hv
  refine ⟨?_, fun hm => meanEval config values hm⟩
  have hl : values.length ≠ 0 := fun hl => hv (List.length_eq_zero.mp hl)
  exact Nat.cast_ne_zero.mpr hl

/-- C9 witness: the theorem applied to a provider with no detected chips,
and the nonzero-divisor fact instantiated at the snapshot `{core0 ↦ 50}`. -/
theorem C9_empty_snapshot_guard_witness :
    workStep baseConfig okWrite 0 [] = (0, Outcome.skipEmpty, none) ∧
    ((([(("core0" : String), (50 : ℚ))] : sensorsValues).length : ℚ) ≠ 0 ∧
      (baseConfig.Mode = "mean" →
        computeNewFanSpeed baseConfig [("core0", 50)] =
          Except.ok (sumValues [("core0", 50)] /
              (([(("core0" : String), (50 : ℚ))] : sensorsValues).length : ℚ),
            speedOf baseConfig (sumValues [("core0", 50)] /
              (([(("core0" : String), (50 : ℚ))] : sensorsValues).length : ℚ))))) :=
  ⟨(C9_empty_snapshot_guard baseConfig okWrite 0 [] rfl).1,
   (C9_empty_snapshot_guard baseConfig okWrite 0 [] rfl).2 [("core0", 50)] (by simp)⟩

/-! ### C10 -/

/-- C10: the temperature snapshot has unique keys, the value stored under a
name is the value of the last enumerated included reading with that
composed name (later readings overwrite earlier ones), and `fanSpeed` is
the truncated value of the last reading whose trimmed composed name equals
the fan identifier (0 when there is none). -/
theorem C10_duplicate_names_last_wins (fanName : String)
    (res : List (String → Bool)) (chips : List Chip) (name : String) :
    ((fetchValues fanName res chips).1.map Prod.fst).Nodup ∧
    mapLookup (fetchValues fanName res chips).1 name =
      (lastMatching (fun r => r.name == name && included fanName res r)
        (allReadings chips)).elim none (fun r => some r.value) ∧
    (fetchValues fanName res chips).2 =
      (lastMatching (fun r => trimSpace r.name == fanName)
        (allReadings chips)).elim 0 (fun r => truncQ r.value) :=
  ⟨fetchValues_keys_nodup fanName res chips,
   fetchValues_lookup fanName res chips name,
   fetchValues_fan fanName res chips⟩

end Autofan
